import Mathlib

/-!
Shallow embedding of the ScanOSINT disaster-data pipeline
(`src/utils/data_processor.py`) and verification of its specification.

Conventions of the embedding:
  * pandas DataFrames become `List` of record structures; a column that an
    adapter never writes (so that it is NaN after `pd.concat`) is an `Option`
    field set to `none`;
  * Python floats become `ℚ` where the code only compares and copies them and
    `ℝ` where `np.log10` is involved; exact real arithmetic stands in for
    IEEE floats;
  * a fallible computation (a `try`/`except` body, a dict lookup that can
    raise `KeyError`) returns an `Option`, with `none` for the raised case;
  * the network response handed to an adapter is an `Option (List feature)`:
    `none` models a network failure or a payload that does not parse;
  * `np.random` draws are inputs: a `Draws` bundle of functions whose
    codomains carry the range guarantees of `np.random.choice`,
    `np.random.uniform(low, high)` (half-open) and
    `np.random.randint(low, high)` (half-open);
  * `datetime.now()` is a parameter `now : ℚ` in epoch seconds; timestamps
    are epoch seconds, one day is 86400 seconds.
-/

namespace ScanOSINT

/-- The six region labels used by `get_region_from_coordinates` and by the
fixed region loop of `load_risk_data`. -/
def regions : List String :=
  ["North America", "South America", "Europe", "Asia", "Africa", "Oceania"]

/-- The five disaster types of the fixed loop in `load_risk_data` and of the
synthetic fallback's `np.random.choice` list. -/
def disaster_types : List String :=
  ["Earthquake", "Hurricane", "Flood", "Wildfire", "Tsunami"]

/-- Severity enumeration used by the synthetic fallback. -/
def severity_levels : List String := ["High", "Medium", "Low"]

/-- Status enumeration used by the synthetic fallback. -/
def status_levels : List String := ["active", "resolved"]

/-- `get_region_from_coordinates(lat, lon)`: the nested `if`/`elif`/`else`
of the source, lines 38-55 of `data_processor.py`. -/
def get_region_from_coordinates (lat lon : ℚ) : String :=
  if lat > 15 then
    if lon < -30 then "North America"
    else if lon < 60 then "Europe"
    else "Asia"
  else
    if lon < -30 then "South America"
    else if lon < 60 then "Africa"
    else "Oceania"

/-- One row of the unified event table.  `location` and `magnitude` are
`Option` because the GDACS adapter writes neither column (they are NaN for
its rows after `pd.concat`). -/
structure Event where
  event_id : String
  disaster_type : String
  latitude : ℚ
  longitude : ℚ
  location : Option String
  magnitude : Option ℚ
  severity : String
  status : String
  affected_population : ℤ
  timestamp : ℚ

/-- The dict `severity_scores = {'High': 1.0, 'Medium': 0.6, 'Low': 0.3}`
of `calculate_risk_score`; lookup of any other key raises `KeyError`,
modelled by `none`. -/
def severity_scores (s : String) : Option ℚ :=
  if s = "High" then some 1
  else if s = "Medium" then some 0.6
  else if s = "Low" then some 0.3
  else none

/-- `population_factor = min(1.0, np.log10(row['affected_population'] + 1) / 6)`. -/
noncomputable def population_factor (p : ℤ) : ℝ :=
  min 1 (Real.logb 10 ((p : ℝ) + 1) / 6)

/-- `calculate_risk_score(row)`, lines 83-91.  The only way the body can
raise is the `severity_scores[row['severity']]` lookup, hence the `Option`. -/
noncomputable def calculate_risk_score (e : Event) : Option ℝ :=
  (severity_scores e.severity).map fun w =>
    (w : ℝ) * (if e.status = "active" then 1 else 0.5)
      * (1 + population_factor e.affected_population)

/-- One feature of the USGS GeoJSON response, with the properties the code
reads.  `felt` is doubly optional: the outer `Option` is whether the
`'felt'` key exists in `properties` (its absence makes
`feature['properties']['felt']` raise `KeyError`), the inner one is a JSON
`null` value, which is falsy in Python. -/
structure UsgsFeature where
  id : String
  lon : ℚ
  lat : ℚ
  mag : ℚ
  time : ℚ
  felt : Option (Option ℤ)

/-- The body of the per-feature loop of `fetch_usgs_data`, lines 18-33.
`none` is the `KeyError` path (missing `'felt'` key); the Python dict
literal evaluates every value, so a raise anywhere discards the record,
which is observationally the same as checking `felt` first.
`status`: `(datetime.now() - fromtimestamp(t/1000)).days < 1` holds exactly
when the difference is under one day, i.e. `now - t/1000 < 86400`. -/
def usgsEvent (now : ℚ) (f : UsgsFeature) : Option Event :=
  match f.felt with
  | none => none
  | some felt =>
    some { event_id := f.id
           disaster_type := "Earthquake"
           latitude := f.lat
           longitude := f.lon
           location := some (get_region_from_coordinates f.lat f.lon)
           magnitude := some f.mag
           severity := if f.mag ≥ 6 then "High"
                       else if f.mag ≥ 4 then "Medium" else "Low"
           status := if now - f.time / 1000 < 86400 then "active" else "resolved"
           affected_population :=
             match felt with
             | some n => if n = 0 then 0 else n
             | none => 0
           timestamp := f.time / 1000 }

/-- The `for feature in data['features']` loop inside the `try` block: an
exception on any feature aborts the whole loop. -/
def usgsLoop (now : ℚ) : List UsgsFeature → Option (List Event)
  | [] => some []
  | f :: fs =>
    match usgsEvent now f, usgsLoop now fs with
    | some e, some es => some (e :: es)
    | _, _ => none

/-- `fetch_usgs_data()`, lines 9-36: `resp = none` models a network failure
or unparseable payload; any in-loop exception also lands in the bare
`except`, which returns an empty DataFrame. -/
def fetch_usgs_data (now : ℚ) (resp : Option (List UsgsFeature)) : List Event :=
  match resp with
  | none => []
  | some fs => (usgsLoop now fs).getD []

/-- One feature of the GDACS response with the properties the code reads.
All fields the code accesses unconditionally are plain; `population` is
optional because the code tests `'population' in props`.  `fromdate` is the
already-parsed timestamp in epoch seconds (the `strptime` call); a payload
whose features do not parse is the `none` response of `fetch_gdacs_data`. -/
structure GdacsFeature where
  eventid : String
  eventtype : String
  lon : ℚ
  lat : ℚ
  alertlevel : String
  alertscore : ℚ
  population : Option ℤ
  fromdate : ℚ

/-- Python `str.capitalize`: first character uppercased, the rest
lowercased. -/
def str_capitalize (s : String) : String :=
  match s.data with
  | [] => ""
  | c :: cs => String.mk (c.toUpper :: cs.map Char.toLower)

/-- The per-feature record of `fetch_gdacs_data`, lines 70-79.  Note the
dict literal has no `'location'` key and no `'magnitude'` key. -/
def gdacsEvent (f : GdacsFeature) : Event :=
  { event_id := f.eventid
    disaster_type := f.eventtype
    latitude := f.lat
    longitude := f.lon
    location := none
    magnitude := none
    severity := str_capitalize f.alertlevel
    status := if f.alertscore > 0 then "active" else "resolved"
    affected_population := f.population.getD 0
    timestamp := f.fromdate }

/-- `fetch_gdacs_data()`, lines 58-81. -/
def fetch_gdacs_data (resp : Option (List GdacsFeature)) : List Event :=
  match resp with
  | none => []
  | some fs => fs.map gdacsEvent

/-- The random draws consumed by the synthetic fallback of
`load_disaster_data`.  Each codomain carries the generator's guarantee:
`np.random.choice` returns an element of its list, `np.random.uniform(a, b)`
lands in `[a, b)` and `np.random.randint(a, b)` in `[a, b)`. -/
structure Draws where
  dtype : Fin 100 → {s : String // s ∈ disaster_types}
  loc : Fin 100 → {s : String // s ∈ regions}
  lat : Fin 100 → {q : ℚ // -90 ≤ q ∧ q < 90}
  lon : Fin 100 → {q : ℚ // -180 ≤ q ∧ q < 180}
  sev : Fin 100 → {s : String // s ∈ severity_levels}
  stat : Fin 100 → {s : String // s ∈ status_levels}
  pop : Fin 100 → {n : ℤ // 1000 ≤ n ∧ n < 1000000}

/-- The simulated-data block of `load_disaster_data`, lines 105-126:
`event_id` is `range(1, 101)`, `timestamp` is `now - timedelta(days=i)`. -/
def synthetic_data (now : ℚ) (d : Draws) : List Event :=
  (List.finRange 100).map fun i =>
    { event_id := toString (i.1 + 1)
      disaster_type := (d.dtype i).1
      latitude := (d.lat i).1
      longitude := (d.lon i).1
      location := some (d.loc i).1
      magnitude := none
      severity := (d.sev i).1
      status := (d.stat i).1
      affected_population := (d.pop i).1
      timestamp := now - 86400 * i.1 }

/-- `combined_data.apply(calculate_risk_score, axis=1)`: a raise on any row
propagates out of `load_disaster_data`. -/
noncomputable def scoreAll : List Event → Option (List (Event × ℝ))
  | [] => some []
  | e :: es =>
    match calculate_risk_score e, scoreAll es with
    | some r, some rest => some ((e, r) :: rest)
    | _, _ => none

/-- `load_disaster_data()`, lines 93-131: concatenate the two feeds, fall
back to synthetic data when the concatenation is empty, then score every
row. -/
noncomputable def load_disaster_data (now : ℚ) (ur : Option (List UsgsFeature))
    (gr : Option (List GdacsFeature)) (d : Draws) : Option (List (Event × ℝ)) :=
  let combined := fetch_usgs_data now ur ++ fetch_gdacs_data gr
  scoreAll (if combined.isEmpty then synthetic_data now d else combined)

/-- Arithmetic mean, `Series.mean()`; only applied to non-empty groups. -/
noncomputable def mean (l : List ℝ) : ℝ := l.sum / l.length

/-- One row of the aggregation output of `load_risk_data`. -/
structure RiskFactor where
  factor : String
  impact_score : ℝ
  severity : String
  region : String

/-- `region_data = disaster_data[disaster_data['location'] == region]`
followed by `type_data = region_data[region_data['disaster_type'] ==
disaster_type]`; a NaN location (a row the GDACS adapter produced)
compares unequal to every region. -/
def typeData (t : List (Event × ℝ)) (region dt : String) :
    List (Event × ℝ) :=
  (t.filter fun r => decide (r.1.location = some region)).filter
    fun r => decide (r.1.disaster_type = dt)

/-- The body of the nested region/type loops of `load_risk_data`, lines
140-153: emit a row only when the filtered group is non-empty. -/
noncomputable def riskEntry (t : List (Event × ℝ)) (region dt : String) :
    Option RiskFactor :=
  if (typeData t region dt).isEmpty then none
  else
    some { factor := dt ++ " Risk"
           impact_score := mean ((typeData t region dt).map fun r => r.2) * 100
           severity :=
             if mean ((typeData t region dt).map fun r => r.2) > 0.7 then "High"
             else if mean ((typeData t region dt).map fun r => r.2) > 0.4 then "Medium"
             else "Low"
           region := region }

/-- The full double loop of `load_risk_data` over the fixed region and type
lists. -/
noncomputable def riskAggregate (t : List (Event × ℝ)) : List RiskFactor :=
  (regions.map fun region => disaster_types.filterMap (riskEntry t region)).flatten

/-- `load_risk_data()`, lines 133-156. -/
noncomputable def load_risk_data (now : ℚ) (ur : Option (List UsgsFeature))
    (gr : Option (List GdacsFeature)) (d : Draws) : Option (List RiskFactor) :=
  (load_disaster_data now ur gr d).map riskAggregate

/-- One row of the historical aggregation (`groupby(['year', 'disaster_type'])
.agg(...)` plus the added `impact_score` column). -/
structure HistRow where
  year : ℤ
  disaster_type : String
  affected_population : ℤ
  risk_score : ℝ
  impact_score : ℝ

/-- The groupby/agg of `process_historical_data`, lines 165-184, with the
calendar-year extraction `timestamp.dt.year` taken as the parameter
`yearOf` (the embedding does not re-implement the Gregorian calendar; the
claims quantify over it).  Group keys are the distinct
`(year, disaster_type)` pairs; pandas additionally sorts them, which no
claim depends on.  On an empty input the code returns an empty frame. -/
noncomputable def historicalAgg (yearOf : ℚ → ℤ) (t : List (Event × ℝ)) :
    List HistRow :=
  let key : Event × ℝ → ℤ × String := fun r => (yearOf r.1.timestamp, r.1.disaster_type)
  ((t.map key).dedup).map fun k =>
    let grp := t.filter fun r => decide (key r = k)
    let pops := (grp.map fun r => r.1.affected_population).sum
    let mrisk := mean (grp.map fun r => r.2)
    { year := k.1
      disaster_type := k.2
      affected_population := pops
      risk_score := mrisk
      impact_score := mrisk * Real.logb 10 ((pops : ℝ) + 1) }

/-- `process_historical_data(df)`, lines 158-184.  The parameter `df` is
bound but never read by the source: the body aggregates
`load_disaster_data()` instead. -/
noncomputable def process_historical_data (yearOf : ℚ → ℤ)
    (df : List (Event × ℝ)) (now : ℚ) (ur : Option (List UsgsFeature))
    (gr : Option (List GdacsFeature)) (d : Draws) : Option (List HistRow) :=
  (load_disaster_data now ur gr d).map (historicalAgg yearOf)

/-! Helper lemmas. -/

theorem severity_scores_high : severity_scores "High" = some 1 := by
  simp [severity_scores]

theorem severity_scores_medium : severity_scores "Medium" = some 0.6 := by
  simp [severity_scores]

theorem severity_scores_low : severity_scores "Low" = some 0.3 := by
  simp [severity_scores]

theorem population_factor_zero : population_factor 0 = 0 := by
  simp [population_factor]

/-- Claim C1: for severity in {High, Medium, Low} the Risk Scorer returns
exactly severity_weight * time_factor * (1 + population_factor), with
weight 1.0 / 0.6 / 0.3, time factor 1.0 for status "active" and 0.5
otherwise; in particular (Low, resolved, 0) gives 0.15 and
(High, active, 0) gives 1.0. -/
theorem c1_risk_score_formula :
    (∀ e : Event, e.severity = "High" →
      calculate_risk_score e =
        some (1 * (if e.status = "active" then 1 else 0.5)
          * (1 + population_factor e.affected_population))) ∧
    (∀ e : Event, e.severity = "Medium" →
      calculate_risk_score e =
        some (0.6 * (if e.status = "active" then 1 else 0.5)
          * (1 + population_factor e.affected_population))) ∧
    (∀ e : Event, e.severity = "Low" →
      calculate_risk_score e =
        some (0.3 * (if e.status = "active" then 1 else 0.5)
          * (1 + population_factor e.affected_population))) ∧
    (∀ e : Event, e.severity = "Low" → e.status = "resolved" →
      e.affected_population = 0 → calculate_risk_score e = some 0.15) ∧
    (∀ e : Event, e.severity = "High" → e.status = "active" →
      e.affected_population = 0 → calculate_risk_score e = some 1) := by
  refine ⟨?_, ?_, ?_, ?_, ?_⟩
  · intro e hs
    simp [calculate_risk_score, hs, severity_scores_high]
  · intro e hs
    simp [calculate_risk_score, hs, severity_scores_medium]
  · intro e hs
    simp [calculate_risk_score, hs, severity_scores_low]
  · intro e hs hst hp
    simp [calculate_risk_score, hs, hst, hp, severity_scores_low,
      population_factor_zero]
    norm_num
  · intro e hs hst hp
    simp [calculate_risk_score, hs, hst, hp, severity_scores_high,
      population_factor_zero]

/-- Witness for C1 at concrete events. -/
theorem c1_risk_score_formula_witness :
    calculate_risk_score
      { event_id := "w1", disaster_type := "Earthquake", latitude := 0,
        longitude := 0, location := some "Africa", magnitude := some 5,
        severity := "Low", status := "resolved", affected_population := 0,
        timestamp := 0 } = some 0.15 :=
  c1_risk_score_formula.2.2.2.1 _ rfl rfl rfl

/-- Claim C6: a severity outside {High, Medium, Low} makes the Risk Scorer
raise (KeyError on the weight dict), never returning a score. -/
theorem c6_invalid_severity_raises :
    ∀ e : Event, e.severity ∉ severity_levels → calculate_risk_score e = none := by
  intro e h
  have h1 : e.severity ≠ "High" := by
    intro hh; exact h (by simp [severity_levels, hh])
  have h2 : e.severity ≠ "Medium" := by
    intro hh; exact h (by simp [severity_levels, hh])
  have h3 : e.severity ≠ "Low" := by
    intro hh; exact h (by simp [severity_levels, hh])
  simp [calculate_risk_score, severity_scores, h1, h2, h3]

/-- Witness for C6: the real GDACS alert level "Green" is not a valid
severity and yields a raise. -/
theorem c6_invalid_severity_raises_witness :
    calculate_risk_score
      { event_id := "w6", disaster_type := "Flood", latitude := 0,
        longitude := 0, location := none, magnitude := none,
        severity := "Green", status := "active", affected_population := 5,
        timestamp := 0 } = none :=
  c6_invalid_severity_raises _ (by decide)

/-- Claim C2: the Region Classifier is total over all coordinates and
returns exactly the six-way split of the spec; at the boundary lon = -30
with lat > 15 it returns Europe. -/
theorem c2_region_classifier :
    ∀ lat lon : ℚ,
      (get_region_from_coordinates lat lon ∈ regions) ∧
      (lat > 15 →
        (lon < -30 → get_region_from_coordinates lat lon = "North America") ∧
        (-30 ≤ lon → lon < 60 → get_region_from_coordinates lat lon = "Europe") ∧
        (60 ≤ lon → get_region_from_coordinates lat lon = "Asia")) ∧
      (lat ≤ 15 →
        (lon < -30 → get_region_from_coordinates lat lon = "South America") ∧
        (-30 ≤ lon → lon < 60 → get_region_from_coordinates lat lon = "Africa") ∧
        (60 ≤ lon → get_region_from_coordinates lat lon = "Oceania")) ∧
      (lat > 15 → get_region_from_coordinates lat (-30) = "Europe") := by
  intro lat lon
  refine ⟨?_, ?_, ?_, ?_⟩
  · unfold get_region_from_coordinates
    split_ifs <;> simp [regions]
  · intro hlat
    refine ⟨fun h => ?_, fun h1 h2 => ?_, fun h => ?_⟩
    · simp [get_region_from_coordinates, hlat, h]
    · have hn : ¬ lon < -30 := by linarith
      simp [get_region_from_coordinates, hlat, hn, h2]
    · have hn : ¬ lon < -30 := by linarith
      have hn2 : ¬ lon < 60 := by linarith
      simp [get_region_from_coordinates, hlat, hn, hn2]
  · intro hlat
    have hlat2 : ¬ lat > 15 := not_lt.mpr hlat
    refine ⟨fun h => ?_, fun h1 h2 => ?_, fun h => ?_⟩
    · simp [get_region_from_coordinates, hlat2, h]
    · have hn : ¬ lon < -30 := by linarith
      simp [get_region_from_coordinates, hlat2, hn, h2]
    · have hn : ¬ lon < -30 := by linarith
      have hn2 : ¬ lon < 60 := by linarith
      simp [get_region_from_coordinates, hlat2, hn, hn2]
  · intro hlat
    norm_num [get_region_from_coordinates, hlat]

/-- Witness for C2 at concrete coordinates. -/
theorem c2_region_classifier_witness :
    get_region_from_coordinates 40 (-30) = "Europe" :=
  (c2_region_classifier 40 (-30)).2.2.2 (by norm_num)

theorem population_factor_nonneg (p : ℤ) (hp : 0 ≤ p) :
    0 ≤ population_factor p := by
  unfold population_factor
  have h1 : (1 : ℝ) ≤ (p : ℝ) + 1 := by
    have : (0 : ℝ) ≤ (p : ℝ) := by exact_mod_cast hp
    linarith
  have h2 : 0 ≤ Real.logb 10 ((p : ℝ) + 1) :=
    Real.logb_nonneg (by norm_num) h1
  exact le_min zero_le_one (by linarith)

theorem population_factor_le_one (p : ℤ) : population_factor p ≤ 1 :=
  min_le_left _ _

theorem population_factor_saturates (p : ℤ) (hp : 999999 ≤ p) :
    population_factor p = 1 := by
  unfold population_factor
  have h6 : Real.logb 10 ((10 : ℝ) ^ (6 : ℕ)) = 6 := by
    rw [Real.logb_pow, Real.logb_self_eq_one (by norm_num)]
    norm_num
  have hle : (10 : ℝ) ^ (6 : ℕ) ≤ (p : ℝ) + 1 := by
    have : (999999 : ℝ) ≤ (p : ℝ) := by exact_mod_cast hp
    norm_num
    linarith
  have hmono : Real.logb 10 ((10 : ℝ) ^ (6 : ℕ)) ≤ Real.logb 10 ((p : ℝ) + 1) :=
    Real.logb_le_logb_of_le (by norm_num) (by positivity) hle
  have h6' : (6 : ℝ) ≤ Real.logb 10 ((p : ℝ) + 1) := by rw [← h6]; exact hmono
  have : (1 : ℝ) ≤ Real.logb 10 ((p : ℝ) + 1) / 6 := by linarith
  exact min_eq_left this

/-- Claim C10: for any valid severity, any status and non-negative
population the score is defined and lies in [0.15, 2]; the minimum 0.15 is
attained at (Low, not active, 0) and the maximum 2 at (High, active,
population at least 999999). -/
theorem c10_risk_score_range :
    (∀ e : Event, e.severity ∈ severity_levels → 0 ≤ e.affected_population →
      ∃ r, calculate_risk_score e = some r ∧ 0.15 ≤ r ∧ r ≤ 2) ∧
    (∀ e : Event, e.severity = "Low" → e.status ≠ "active" →
      e.affected_population = 0 → calculate_risk_score e = some 0.15) ∧
    (∀ e : Event, e.severity = "High" → e.status = "active" →
      999999 ≤ e.affected_population → calculate_risk_score e = some 2) := by
  refine ⟨?_, ?_, ?_⟩
  · intro e hmem hpop
    have hpf0 := population_factor_nonneg e.affected_population hpop
    have hpf1 := population_factor_le_one e.affected_population
    have hsev : e.severity = "High" ∨ e.severity = "Medium" ∨ e.severity = "Low" := by
      simpa [severity_levels] using hmem
    rcases hsev with hs | hs | hs
    · have hcs : calculate_risk_score e =
          some ((1 : ℝ) * (if e.status = "active" then (1 : ℝ) else 0.5)
            * (1 + population_factor e.affected_population)) := by
        simp [calculate_risk_score, hs, severity_scores_high]
      refine ⟨_, hcs, ?_, ?_⟩ <;>
        by_cases hst : e.status = "active" <;> simp [hst] <;> nlinarith
    · have hcs : calculate_risk_score e =
          some ((0.6 : ℝ) * (if e.status = "active" then (1 : ℝ) else 0.5)
            * (1 + population_factor e.affected_population)) := by
        simp [calculate_risk_score, hs, severity_scores_medium]
      refine ⟨_, hcs, ?_, ?_⟩ <;>
        by_cases hst : e.status = "active" <;> simp [hst] <;> nlinarith
    · have hcs : calculate_risk_score e =
          some ((0.3 : ℝ) * (if e.status = "active" then (1 : ℝ) else 0.5)
            * (1 + population_factor e.affected_population)) := by
        simp [calculate_risk_score, hs, severity_scores_low]
      refine ⟨_, hcs, ?_, ?_⟩ <;>
        by_cases hst : e.status = "active" <;> simp [hst] <;> nlinarith
  · intro e hs hst hp
    simp [calculate_risk_score, hs, hst, hp, severity_scores_low,
      population_factor_zero]
    norm_num
  · intro e hs hst hp
    have hpf := population_factor_saturates e.affected_population hp
    simp [calculate_risk_score, hs, hst, severity_scores_high, hpf]
    norm_num

/-- Witness for C10 at a concrete event. -/
theorem c10_risk_score_range_witness :
    (∃ r, calculate_risk_score
      { event_id := "w10", disaster_type := "Tsunami", latitude := 0,
        longitude := 0, location := some "Asia", magnitude := none,
        severity := "Medium", status := "active", affected_population := 42,
        timestamp := 0 } = some r ∧ 0.15 ≤ r ∧ r ≤ 2) ∧
    calculate_risk_score
      { event_id := "w10b", disaster_type := "Tsunami", latitude := 0,
        longitude := 0, location := some "Asia", magnitude := none,
        severity := "High", status := "active",
        affected_population := 999999, timestamp := 0 } = some 2 :=
  ⟨c10_risk_score_range.1 _ (by decide) (by decide),
   c10_risk_score_range.2.2 _ rfl rfl (by decide)⟩

theorem usgsEvent_felt_none {now : ℚ} {f : UsgsFeature} (h : f.felt = none) :
    usgsEvent now f = none := by
  simp [usgsEvent, h]

theorem usgsLoop_append_none (now : ℚ) (f : UsgsFeature)
    (hf : usgsEvent now f = none) :
    ∀ pre post : List UsgsFeature, usgsLoop now (pre ++ f :: post) = none := by
  intro pre
  induction pre with
  | nil =>
    intro post
    simp [usgsLoop, hf]
  | cons x xs ih =>
    intro post
    show usgsLoop now (x :: (xs ++ f :: post)) = none
    unfold usgsLoop
    rw [ih post]
    cases usgsEvent now x <;> rfl

theorem usgsLoop_mem (now : ℚ) : ∀ (fs : List UsgsFeature) (es : List Event),
    usgsLoop now fs = some es → ∀ e ∈ es, ∃ f, f ∈ fs ∧ usgsEvent now f = some e := by
  intro fs
  induction fs with
  | nil =>
    intro es hes e he
    simp [usgsLoop] at hes
    subst hes
    simp at he
  | cons f fs ih =>
    intro es hes e he
    unfold usgsLoop at hes
    cases hf : usgsEvent now f with
    | none => rw [hf] at hes; simp at hes
    | some ev =>
      rw [hf] at hes
      cases hl : usgsLoop now fs with
      | none => rw [hl] at hes; simp at hes
      | some es2 =>
        rw [hl] at hes
        simp only [Option.some.injEq] at hes
        subst hes
        rcases List.mem_cons.mp he with he | he
        · exact ⟨f, List.mem_cons_self f fs, by rw [hf, he]⟩
        · rcases ih es2 hl e he with ⟨g, hg, hge⟩
          exact ⟨g, List.mem_cons_of_mem f hg, hge⟩

theorem usgsEvent_some_fields {now : ℚ} {f : UsgsFeature} {e : Event}
    (h : usgsEvent now f = some e) :
    e.location = some (get_region_from_coordinates f.lat f.lon) ∧
    e.magnitude = some f.mag := by
  unfold usgsEvent at h
  cases hf : f.felt with
  | none => rw [hf] at h; simp at h
  | some v =>
    rw [hf] at h
    simp only [Option.some.injEq] at h
    subst h
    exact ⟨rfl, rfl⟩

/-- A GDACS feature used in concrete refutations: a real-shaped red alert. -/
def g0 : GdacsFeature :=
  { eventid := "1012345", eventtype := "EQ", lon := 10, lat := 10,
    alertlevel := "red", alertscore := 2, population := some 1000,
    fromdate := 0 }

/-- Counterexample for C3: the GDACS adapter emits a record whose
`location` column is never written (NaN after concatenation), so the
ten-field invariant fails for the multi-hazard feed. -/
theorem c3_gdacs_missing_location :
    ∃ e, fetch_gdacs_data (some [g0]) = [e] ∧ e.location = none :=
  ⟨gdacsEvent g0, rfl, rfl⟩

/-- Claim C3 as amended: every seismic-adapter record has `location` and
`magnitude` populated, while every multi-hazard-adapter record leaves
`location` undefined. -/
theorem c3_adapter_fields :
    (∀ (now : ℚ) (resp : Option (List UsgsFeature)) (e : Event),
      e ∈ fetch_usgs_data now resp → e.location.isSome ∧ e.magnitude.isSome) ∧
    (∀ (resp : Option (List GdacsFeature)) (e : Event),
      e ∈ fetch_gdacs_data resp → e.location = none) := by
  constructor
  · intro now resp e he
    cases resp with
    | none => simp [fetch_usgs_data] at he
    | some fs =>
      have he2 : e ∈ (usgsLoop now fs).getD [] := he
      cases hl : usgsLoop now fs with
      | none => rw [hl] at he2; simp at he2
      | some es =>
        rw [hl] at he2
        simp only [Option.getD_some] at he2
        rcases usgsLoop_mem now fs es hl e he2 with ⟨f, _, hfe⟩
        rcases usgsEvent_some_fields hfe with ⟨hloc, hmag⟩
        rw [hloc, hmag]
        exact ⟨rfl, rfl⟩
  · intro resp e he
    cases resp with
    | none => simp [fetch_gdacs_data] at he
    | some fs =>
      unfold fetch_gdacs_data at he
      rcases List.mem_map.mp he with ⟨f, _, hfe⟩
      rw [← hfe]
      rfl

/-- Witness for C3's amended theorem at concrete inputs. -/
theorem c3_adapter_fields_witness :
    (gdacsEvent g0).location = none :=
  c3_adapter_fields.2 (some [g0]) (gdacsEvent g0) (by simp [fetch_gdacs_data])

/-- A USGS feature whose `properties` dict lacks the `'felt'` key. -/
def f0 : UsgsFeature :=
  { id := "us7000abcd", lon := 142, lat := 38, mag := 5, time := 0,
    felt := none }

/-- Counterexample for C8: a feature lacking the `'felt'` key does not
yield a record with `affected_population` 0 — the `KeyError` lands in the
adapter's bare `except` and the whole fetch returns an empty collection. -/
theorem c8_missing_felt_empties :
    f0.felt = none ∧ fetch_usgs_data 0 (some [f0]) = [] := by
  constructor
  · rfl
  · show (usgsLoop 0 ([] ++ f0 :: [])).getD [] = []
    rw [usgsLoop_append_none 0 f0 (usgsEvent_felt_none rfl) [] []]
    rfl

/-- Claim C8 as amended: when the `'felt'` key is present (a null or a
count), the record's `affected_population` is the count with 0 for null,
and severity follows the magnitude thresholds; a feature lacking the key
makes the adapter return an empty collection. -/
theorem c8_felt_and_severity :
    (∀ (now : ℚ) (f : UsgsFeature) (v : Option ℤ), f.felt = some v →
      ∃ e, usgsEvent now f = some e ∧
        e.affected_population = v.getD 0 ∧
        e.severity = (if f.mag ≥ 6 then "High"
                      else if f.mag ≥ 4 then "Medium" else "Low")) ∧
    (∀ (now : ℚ) (pre post : List UsgsFeature) (f : UsgsFeature),
      f.felt = none → fetch_usgs_data now (some (pre ++ f :: post)) = []) := by
  constructor
  · intro now f v hv
    cases v with
    | none =>
      have hev : usgsEvent now f =
          some { event_id := f.id
                 disaster_type := "Earthquake"
                 latitude := f.lat
                 longitude := f.lon
                 location := some (get_region_from_coordinates f.lat f.lon)
                 magnitude := some f.mag
                 severity := if f.mag ≥ 6 then "High"
                             else if f.mag ≥ 4 then "Medium" else "Low"
                 status := if now - f.time / 1000 < 86400 then "active"
                           else "resolved"
                 affected_population := 0
                 timestamp := f.time / 1000 } := by
        unfold usgsEvent
        rw [hv]
      exact ⟨_, hev, rfl, rfl⟩
    | some n =>
      have hev : usgsEvent now f =
          some { event_id := f.id
                 disaster_type := "Earthquake"
                 latitude := f.lat
                 longitude := f.lon
                 location := some (get_region_from_coordinates f.lat f.lon)
                 magnitude := some f.mag
                 severity := if f.mag ≥ 6 then "High"
                             else if f.mag ≥ 4 then "Medium" else "Low"
                 status := if now - f.time / 1000 < 86400 then "active"
                           else "resolved"
                 affected_population := if n = 0 then 0 else n
                 timestamp := f.time / 1000 } := by
        unfold usgsEvent
        rw [hv]
      refine ⟨_, hev, ?_, rfl⟩
      by_cases hn : n = 0
      · simp [hn]
      · simp [hn]
  · intro now pre post f hf
    show (usgsLoop now (pre ++ f :: post)).getD [] = []
    rw [usgsLoop_append_none now f (usgsEvent_felt_none hf) pre post]
    rfl

/-- Witness for C8's amended theorem at a concrete feature. -/
theorem c8_felt_and_severity_witness :
    ∃ e, usgsEvent 0
      { id := "us6000wxyz", lon := -120, lat := 36, mag := 4.5, time := 0,
        felt := some (some 7) } = some e ∧
      e.affected_population = (some (7 : ℤ)).getD 0 ∧
      e.severity = (if (4.5 : ℚ) ≥ 6 then "High"
                    else if (4.5 : ℚ) ≥ 4 then "Medium" else "Low") :=
  c8_felt_and_severity.1 0 _ (some 7) rfl

/-- Claim C9: on a network failure or unparseable payload both adapters
return an empty collection, and a feature missing a required field (the
`'felt'` key) also yields an empty collection; the error never escapes. -/
theorem c9_adapters_swallow_errors :
    (∀ now : ℚ, fetch_usgs_data now none = []) ∧
    fetch_gdacs_data none = [] ∧
    (∀ (now : ℚ) (pre post : List UsgsFeature) (f : UsgsFeature),
      f.felt = none → fetch_usgs_data now (some (pre ++ f :: post)) = []) := by
  refine ⟨fun _ => rfl, rfl, ?_⟩
  intro now pre post f hf
  show (usgsLoop now (pre ++ f :: post)).getD [] = []
  rw [usgsLoop_append_none now f (usgsEvent_felt_none hf) pre post]
  rfl

/-- Witness for C9 at concrete inputs. -/
theorem c9_adapters_swallow_errors_witness :
    fetch_usgs_data 0 (some ([f0] ++ f0 :: [])) = [] :=
  c9_adapters_swallow_errors.2.2 0 [f0] [] f0 rfl

theorem severity_scores_of_mem {s : String} (h : s ∈ severity_levels) :
    ∃ w, severity_scores s = some w := by
  have h3 : s = "High" ∨ s = "Medium" ∨ s = "Low" := by
    simpa [severity_levels] using h
  rcases h3 with rfl | rfl | rfl
  · exact ⟨1, severity_scores_high⟩
  · exact ⟨0.6, severity_scores_medium⟩
  · exact ⟨0.3, severity_scores_low⟩

theorem scoreAll_of_valid : ∀ l : List Event,
    (∀ e ∈ l, e.severity ∈ severity_levels) →
    ∃ t, scoreAll l = some t ∧ t.length = l.length := by
  intro l
  induction l with
  | nil => intro _; exact ⟨[], rfl, rfl⟩
  | cons e es ih =>
    intro hall
    rcases severity_scores_of_mem (hall e (List.mem_cons_self e es)) with ⟨w, hw⟩
    rcases ih (fun x hx => hall x (List.mem_cons_of_mem e hx)) with ⟨t, ht, hlen⟩
    have hcs : calculate_risk_score e =
        some ((w : ℝ) * (if e.status = "active" then 1 else 0.5)
          * (1 + population_factor e.affected_population)) := by
      simp [calculate_risk_score, hw]
    refine ⟨(e, (w : ℝ) * (if e.status = "active" then 1 else 0.5)
      * (1 + population_factor e.affected_population)) :: t, ?_, by simp [hlen]⟩
    unfold scoreAll
    rw [hcs, ht]

theorem synthetic_data_length (now : ℚ) (d : Draws) :
    (synthetic_data now d).length = 100 := by
  simp [synthetic_data]

theorem synthetic_data_severity (now : ℚ) (d : Draws) :
    ∀ e ∈ synthetic_data now d, e.severity ∈ severity_levels := by
  intro e he
  rcases List.mem_map.mp he with ⟨i, _, hie⟩
  rw [← hie]
  exact (d.sev i).2

/-- Claim C7: the synthetic fallback yields exactly 100 rows with
sequential identifiers, valid severities, populations inside
[1000, 1000000], coordinates inside the valid ranges and timestamp
now - i days; when both feeds come back empty, `load_disaster_data`
returns this non-empty scored table. -/
theorem c7_synthetic_fallback :
    ∀ (now : ℚ) (d : Draws),
      (synthetic_data now d).length = 100 ∧
      (∀ (i : ℕ) (h : i < (synthetic_data now d).length),
        ((synthetic_data now d).get ⟨i, h⟩).event_id = toString (i + 1) ∧
        ((synthetic_data now d).get ⟨i, h⟩).severity ∈ severity_levels ∧
        1000 ≤ ((synthetic_data now d).get ⟨i, h⟩).affected_population ∧
        ((synthetic_data now d).get ⟨i, h⟩).affected_population ≤ 1000000 ∧
        -90 ≤ ((synthetic_data now d).get ⟨i, h⟩).latitude ∧
        ((synthetic_data now d).get ⟨i, h⟩).latitude ≤ 90 ∧
        -180 ≤ ((synthetic_data now d).get ⟨i, h⟩).longitude ∧
        ((synthetic_data now d).get ⟨i, h⟩).longitude ≤ 180 ∧
        ((synthetic_data now d).get ⟨i, h⟩).timestamp = now - 86400 * i) ∧
      (∀ (ur : Option (List UsgsFeature)) (gr : Option (List GdacsFeature)),
        fetch_usgs_data now ur = [] → fetch_gdacs_data gr = [] →
        ∃ t, load_disaster_data now ur gr d = some t ∧ t.length = 100) := by
  intro now d
  refine ⟨synthetic_data_length now d, ?_, ?_⟩
  · intro i h
    have h100 : i < 100 := by
      rw [synthetic_data_length now d] at h
      exact h
    have hget : (synthetic_data now d).get ⟨i, h⟩ =
        { event_id := toString ((⟨i, h100⟩ : Fin 100).1 + 1)
          disaster_type := (d.dtype ⟨i, h100⟩).1
          latitude := (d.lat ⟨i, h100⟩).1
          longitude := (d.lon ⟨i, h100⟩).1
          location := some (d.loc ⟨i, h100⟩).1
          magnitude := none
          severity := (d.sev ⟨i, h100⟩).1
          status := (d.stat ⟨i, h100⟩).1
          affected_population := (d.pop ⟨i, h100⟩).1
          timestamp := now - 86400 * (⟨i, h100⟩ : Fin 100).1 } := by
      simp [synthetic_data, List.get_eq_getElem, Fin.cast]
    rw [hget]
    refine ⟨rfl, (d.sev ⟨i, h100⟩).2, (d.pop ⟨i, h100⟩).2.1,
      le_trans (le_of_lt (d.pop ⟨i, h100⟩).2.2) (by norm_num),
      (d.lat ⟨i, h100⟩).2.1, le_of_lt (lt_of_lt_of_le (d.lat ⟨i, h100⟩).2.2 (by norm_num)),
      (d.lon ⟨i, h100⟩).2.1, le_of_lt (lt_of_lt_of_le (d.lon ⟨i, h100⟩).2.2 (by norm_num)),
      rfl⟩
  · intro ur gr hu hg
    unfold load_disaster_data
    rw [hu, hg]
    simp only [List.nil_append, List.isEmpty_nil, if_pos]
    rcases scoreAll_of_valid (synthetic_data now d) (synthetic_data_severity now d)
      with ⟨t, ht, hlen⟩
    exact ⟨t, ht, by rw [hlen, synthetic_data_length]⟩

/-- A concrete bundle of random draws for witnesses. -/
def d0 : Draws :=
  { dtype := fun _ => ⟨"Earthquake", by decide⟩
    loc := fun _ => ⟨"Asia", by decide⟩
    lat := fun _ => ⟨10, by norm_num⟩
    lon := fun _ => ⟨100, by norm_num⟩
    sev := fun _ => ⟨"High", by decide⟩
    stat := fun _ => ⟨"active", by decide⟩
    pop := fun _ => ⟨50000, by norm_num⟩ }

/-- Witness for C7: with both feeds failing, the pipeline returns a scored
table of exactly 100 rows. -/
theorem c7_synthetic_fallback_witness :
    ∃ t, load_disaster_data 0 none none d0 = some t ∧ t.length = 100 :=
  (c7_synthetic_fallback 0 d0).2.2 none none rfl rfl

theorem historicalAgg_ne_nil (yearOf : ℚ → ℤ) (t : List (Event × ℝ))
    (ht : t ≠ []) : historicalAgg yearOf t ≠ [] := by
  unfold historicalAgg
  intro hcontra
  rw [List.map_eq_nil_iff, List.dedup_eq_nil, List.map_eq_nil_iff] at hcontra
  exact ht hcontra

/-- Claim C5, against the code: `process_historical_data` never reads its
`df` argument — its result is the aggregation of the internally loaded
table, which the synthetic fallback makes non-empty even when `df` is the
empty table and both feeds fail.  So an empty input does not produce the
empty (year, disaster_type, impact_score) table the claim describes. -/
theorem c5_ignores_input :
    ∀ (yearOf : ℚ → ℤ) (now : ℚ) (d : Draws) (df : List (Event × ℝ)),
      process_historical_data yearOf df now none none d =
        process_historical_data yearOf [] now none none d ∧
      ∃ l, process_historical_data yearOf [] now none none d = some l ∧
        l ≠ [] := by
  intro yearOf now d df
  constructor
  · rfl
  · unfold process_historical_data load_disaster_data
    simp only [fetch_usgs_data, fetch_gdacs_data, List.nil_append,
      List.isEmpty_nil, if_pos]
    rcases scoreAll_of_valid (synthetic_data now d) (synthetic_data_severity now d)
      with ⟨t, ht, hlen⟩
    refine ⟨historicalAgg yearOf t, by rw [ht]; rfl, ?_⟩
    apply historicalAgg_ne_nil
    intro hnil
    rw [hnil] at hlen
    simp [synthetic_data_length] at hlen

theorem riskEntry_some_fields {t : List (Event × ℝ)} {region dt : String}
    {f : RiskFactor} (h : riskEntry t region dt = some f) :
    f.region = region ∧ f.factor = dt ++ " Risk" ∧ typeData t region dt ≠ [] ∧
    f.impact_score = mean ((typeData t region dt).map fun r => r.2) * 100 ∧
    f.severity =
      (if mean ((typeData t region dt).map fun r => r.2) > 0.7 then "High"
       else if mean ((typeData t region dt).map fun r => r.2) > 0.4 then "Medium"
       else "Low") := by
  unfold riskEntry at h
  split at h
  · simp at h
  · rename_i hne
    simp only [Option.some.injEq] at h
    subst h
    refine ⟨rfl, rfl, ?_, rfl, rfl⟩
    simpa [List.isEmpty_iff] using hne

theorem riskEntry_of_empty {t : List (Event × ℝ)} {region dt : String}
    (h : typeData t region dt = []) : riskEntry t region dt = none := by
  unfold riskEntry
  rw [if_pos (by simpa [List.isEmpty_iff] using h)]

theorem countP_flatten {β : Type} (p : β → Bool) : ∀ L : List (List β),
    (L.flatten).countP p = (L.map fun l => l.countP p).sum := by
  intro L
  induction L with
  | nil => rfl
  | cons l ls ih => simp [List.countP_append, ih]

theorem countP_filterMap_single {α β : Type} (g : α → Option β) (p : β → Bool) :
    ∀ (l : List α) (a : α), a ∈ l → l.Nodup →
    ∀ fa, g a = some fa → p fa = true →
    (∀ b ∈ l, b ≠ a → ∀ f2, g b = some f2 → p f2 = false) →
    (l.filterMap g).countP p = 1 := by
  intro l
  induction l with
  | nil => intro a ha; simp at ha
  | cons x xs ih =>
    intro a ha hnd fa hga hpa hzero
    rcases List.nodup_cons.mp hnd with ⟨hxnot, hndxs⟩
    rcases List.mem_cons.mp ha with rfl | hamem
    · rw [List.filterMap_cons_some hga, List.countP_cons, hpa]
      have hz : (xs.filterMap g).countP p = 0 := by
        rw [List.countP_eq_zero]
        intro f2 hf2
        rcases List.mem_filterMap.mp hf2 with ⟨b, hb, hgb⟩
        have hbne : b ≠ a := fun hcontra => hxnot (hcontra ▸ hb)
        simp [hzero b (List.mem_cons_of_mem _ hb) hbne f2 hgb]
      rw [hz]
      simp
    · have hxa : x ≠ a := fun hcontra => hxnot (hcontra ▸ hamem)
      have hrec : (xs.filterMap g).countP p = 1 :=
        ih a hamem hndxs fa hga hpa
          (fun b hb hbne f2 => hzero b (List.mem_cons_of_mem _ hb) hbne f2)
      cases hgx : g x with
      | none => rw [List.filterMap_cons_none hgx]; exact hrec
      | some fx =>
        rw [List.filterMap_cons_some hgx, List.countP_cons,
          hzero x (List.mem_cons_self x xs) hxa fx hgx, hrec]
        simp

theorem sum_map_eq_single {α : Type} (g : α → ℕ) :
    ∀ (l : List α) (a : α), a ∈ l → l.Nodup → (∀ b ∈ l, b ≠ a → g b = 0) →
    (l.map g).sum = g a := by
  intro l
  induction l with
  | nil => intro a ha; simp at ha
  | cons x xs ih =>
    intro a ha hnd hzero
    rcases List.nodup_cons.mp hnd with ⟨hxnot, hndxs⟩
    rcases List.mem_cons.mp ha with rfl | hamem
    · have hz : (xs.map g).sum = 0 := by
        rw [List.sum_eq_zero_iff]
        intro n hn
        rcases List.mem_map.mp hn with ⟨b, hb, hbn⟩
        rw [← hbn]
        exact hzero b (List.mem_cons_of_mem _ hb)
          (fun hcontra => hxnot (hcontra ▸ hb))
      simp [hz]
    · have hxa : x ≠ a := fun hcontra => hxnot (hcontra ▸ hamem)
      have hrec := ih a hamem hndxs
        (fun b hb hbne => hzero b (List.mem_cons_of_mem _ hb) hbne)
      simp [hrec, hzero x (List.mem_cons_self x xs) hxa]

theorem disaster_types_nodup : disaster_types.Nodup := by decide

theorem regions_nodup : regions.Nodup := by decide

theorem disaster_types_risk_labels :
    ∀ b ∈ disaster_types, ∀ c ∈ disaster_types, b ≠ c →
      b ++ " Risk" ≠ c ++ " Risk" := by decide

theorem mean_replicate (n : ℕ) (R : ℝ) :
    mean (List.replicate (n + 1) R) = R := by
  unfold mean
  rw [List.sum_replicate, List.length_replicate, nsmul_eq_mul]
  field_simp

/-- Claim C4 as amended: for every pair from the fixed enumerations (six
regions, five disaster types) with at least one matching row, the
aggregation emits exactly one row, its impact_score is the group mean times
100, its severity buckets by impact_score > 70 / > 40, and a group of N
identical scores R gives impact_score = 100 * R; enumerated pairs with no
matching rows are omitted. -/
theorem c4_risk_by_region_and_type :
    (∀ (t : List (Event × ℝ)) (region dt : String),
      region ∈ regions → dt ∈ disaster_types → typeData t region dt ≠ [] →
      ((riskAggregate t).countP (fun f =>
          decide (f.region = region) && decide (f.factor = dt ++ " Risk")) = 1) ∧
      (∀ f ∈ riskAggregate t, f.region = region → f.factor = dt ++ " Risk" →
        f.impact_score = mean ((typeData t region dt).map fun r => r.2) * 100 ∧
        f.severity = (if f.impact_score > 70 then "High"
                      else if f.impact_score > 40 then "Medium" else "Low") ∧
        (∀ (n : ℕ) (R : ℝ),
          (typeData t region dt).map (fun r => r.2) = List.replicate (n + 1) R →
          f.impact_score = 100 * R))) ∧
    (∀ (t : List (Event × ℝ)) (region dt : String),
      region ∈ regions → dt ∈ disaster_types → typeData t region dt = [] →
      ∀ f ∈ riskAggregate t,
        ¬(f.region = region ∧ f.factor = dt ++ " Risk")) := by
  constructor
  · intro t region dt hreg hdt hne
    constructor
    · unfold riskAggregate
      rw [countP_flatten, List.map_map]
      have hone : ((disaster_types.filterMap (riskEntry t region)).countP
          (fun f => decide (f.region = region)
            && decide (f.factor = dt ++ " Risk"))) = 1 := by
        have hentry : riskEntry t region dt =
            some { factor := dt ++ " Risk"
                   impact_score :=
                     mean ((typeData t region dt).map fun r => r.2) * 100
                   severity :=
                     if mean ((typeData t region dt).map fun r => r.2) > 0.7
                     then "High"
                     else if mean ((typeData t region dt).map fun r => r.2) > 0.4
                     then "Medium" else "Low"
                   region := region } := by
          unfold riskEntry
          rw [if_neg (by simpa [List.isEmpty_iff] using hne)]
        refine countP_filterMap_single (riskEntry t region) _ disaster_types dt
          hdt disaster_types_nodup _ hentry (by simp) ?_
        intro b hb hbne f2 hf2
        rcases riskEntry_some_fields hf2 with ⟨_, hfac, _, _, _⟩
        have : f2.factor ≠ dt ++ " Risk" := by
          rw [hfac]
          exact disaster_types_risk_labels b hb dt hdt hbne
        simp [this]
      calc ((regions.map fun r =>
              ((disaster_types.filterMap (riskEntry t r)).countP
                (fun f => decide (f.region = region)
                  && decide (f.factor = dt ++ " Risk"))))).sum
          = ((disaster_types.filterMap (riskEntry t region)).countP
              (fun f => decide (f.region = region)
                && decide (f.factor = dt ++ " Risk"))) := by
            apply sum_map_eq_single _ regions region hreg regions_nodup
            intro r hr hrne
            rw [List.countP_eq_zero]
            intro f2 hf2
            rcases List.mem_filterMap.mp hf2 with ⟨b, _, hgb⟩
            rcases riskEntry_some_fields hgb with ⟨hfreg, _, _, _, _⟩
            simp [hfreg, hrne]
        _ = 1 := hone
    · intro f hf hfr hff
      rcases List.mem_flatten.mp hf with ⟨blk, hblk, hfblk⟩
      rcases List.mem_map.mp hblk with ⟨r, hrmem, hblkdef⟩
      rcases List.mem_filterMap.mp (hblkdef ▸ hfblk) with ⟨d, hdmem, hd⟩
      rcases riskEntry_some_fields hd with ⟨hfreg, hfac, _, _, _⟩
      have hrr : r = region := by rw [← hfreg, hfr]
      have hdd : d = dt := by
        by_contra hne3
        exact disaster_types_risk_labels d hdmem dt hdt hne3 (by rw [← hfac, hff])
      rw [hrr, hdd] at hd
      rcases riskEntry_some_fields hd with ⟨_, _, _, himp, hsev⟩
      refine ⟨himp, ?_, ?_⟩
      · rw [hsev, himp]
        by_cases h7 : mean ((typeData t region dt).map fun r => r.2) > 0.7
        · rw [if_pos h7, if_pos (by nlinarith)]
        · rw [if_neg h7]
          push_neg at h7
          by_cases h4 : mean ((typeData t region dt).map fun r => r.2) > 0.4
          · rw [if_pos h4, if_neg (by push_neg; nlinarith), if_pos (by nlinarith)]
          · push_neg at h4
            rw [if_neg (by push_neg; nlinarith), if_neg (by push_neg; nlinarith),
              if_neg (by push_neg; nlinarith)]
      · intro n R hrep
        rw [himp, hrep, mean_replicate]
        ring
  · intro t region dt hreg hdt hempty f hf hcontra
    rcases hcontra with ⟨hfr, hff⟩
    rcases List.mem_flatten.mp hf with ⟨blk, hblk, hfblk⟩
    rcases List.mem_map.mp hblk with ⟨r, hrmem, hblkdef⟩
    rcases List.mem_filterMap.mp (hblkdef ▸ hfblk) with ⟨d, hdmem, hd⟩
    rcases riskEntry_some_fields hd with ⟨hfreg, hfac, _, _, _⟩
    have hrr : r = region := by rw [← hfreg, hfr]
    have hdd : d = dt := by
      by_contra hne3
      exact disaster_types_risk_labels d hdmem dt hdt hne3 (by rw [← hfac, hff])
    rw [hrr, hdd] at hd
    rw [riskEntry_of_empty hempty] at hd
    exact Option.noConfusion hd

/-- An event whose disaster type is outside the fixed five-type list. -/
def droughtRow : Event :=
  { event_id := "d1", disaster_type := "Drought", latitude := 40,
    longitude := -100, location := some "North America", magnitude := none,
    severity := "High", status := "active", affected_population := 1000,
    timestamp := 0 }

def t4 : List (Event × ℝ) := [(droughtRow, 0.5)]

/-- Counterexample for C4: the pair (North America, Drought) is present in
the table with one matching row, yet the aggregation emits no row at all —
the fixed type loop never visits "Drought". -/
theorem c4_unlisted_type_omitted :
    (droughtRow.location = some "North America" ∧
     droughtRow.disaster_type = "Drought" ∧ (droughtRow, (0.5 : ℝ)) ∈ t4) ∧
    riskAggregate t4 = [] := by
  refine ⟨⟨rfl, rfl, List.mem_singleton.mpr rfl⟩, ?_⟩
  rfl

/-- An event matching the enumerated pair (Asia, Earthquake). -/
def asiaQuake : Event :=
  { event_id := "a1", disaster_type := "Earthquake", latitude := 10,
    longitude := 100, location := some "Asia", magnitude := some 6,
    severity := "High", status := "active", affected_population := 0,
    timestamp := 0 }

def t4b : List (Event × ℝ) := [(asiaQuake, 0.6)]

/-- Witness for C4's amended theorem at a concrete table. -/
theorem c4_risk_by_region_and_type_witness :
    (riskAggregate t4b).countP (fun f =>
      decide (f.region = "Asia")
        && decide (f.factor = "Earthquake" ++ " Risk")) = 1 :=
  (c4_risk_by_region_and_type.1 t4b "Asia" "Earthquake" (by decide) (by decide)
    (by
      intro h
      rw [show typeData t4b "Asia" "Earthquake" = t4b from rfl] at h
      simp [t4b] at h)).1

end ScanOSINT
